import Mathlib

/-!
Shallow embedding of `klippy/kinematics/extruder.py` (extruder-axis
kinematics of a 3D-printer motion controller).

Numeric values are modelled as rationals (`ℚ`).  Python float division
raises `ZeroDivisionError` when the divisor is `0.0`; the embedding makes
that observable via an explicit `division_by_zero` outcome (for
`check_move`), an `Option` result (for `calc_junction` and the per-move
projection), matching the order in which the source evaluates the
expressions.

The `Move` objects are produced by the planner (`toolhead.py`), which is
outside this repository snapshot; the `Move` structure below carries
exactly the fields that `extruder.py` reads, and the side-effecting calls
into the planner / solver / stepper collaborators (`limit_speed`,
`note_flush_delay`, `extruder_set_pressure`, `extruder_move_fill`,
`motor_enable`) are modelled as explicit result data / event lists.
-/

namespace Klippy

/-- The fields of a planner `Move` object that `extruder.py` reads.
`axes_d0 .. axes_d3` stand for `move.axes_d[0] .. move.axes_d[3]`
(the extruder axis is index 3); `start_pos3` / `end_pos3` stand for
`move.start_pos[3]` / `move.end_pos[3]`. -/
structure Move where
  axes_d0 : ℚ
  axes_d1 : ℚ
  axes_d2 : ℚ
  axes_d3 : ℚ
  move_d : ℚ
  is_kinematic_move : Bool
  max_cruise_v2 : ℚ
  accel : ℚ
  start_v : ℚ
  cruise_v : ℚ
  accel_t : ℚ
  cruise_t : ℚ
  decel_t : ℚ
  start_pos3 : ℚ
  end_pos3 : ℚ
  deriving DecidableEq

/-- The configuration-derived constants of `PrinterExtruder` consulted by
`check_move` / `calc_junction` (all fixed at construction). -/
structure ExtruderConfig where
  nozzle_diameter : ℚ
  filament_area : ℚ
  max_extrude_ratio : ℚ
  max_e_velocity : ℚ
  max_e_accel : ℚ
  max_e_dist : ℚ
  instant_corner_v : ℚ
  deriving DecidableEq

/-- Outcome of `PrinterExtruder.check_move`:
* `division_by_zero` — a Python `ZeroDivisionError` escapes (the ratio
  computation `move.axes_d[3] / move.move_d`, or `1. / abs(extrude_r)`);
* `not_hot` — the "Extrude below minimum temp" `EndstopError`;
* `extrude_only_too_long` — the "Extrude only move too long" `EndstopError`;
* `limit_speed v a` — the move is accepted after `move.limit_speed(v, a)`
  (the extrude-only clamp, a mutation of the move's speed limits);
* `cross_section_exceeded` — the "Move exceeds maximum extrusion"
  `EndstopError`;
* `accepted` — the function returns normally without touching the move. -/
inductive CheckResult
  | division_by_zero
  | not_hot
  | extrude_only_too_long
  | limit_speed (speed accel : ℚ)
  | cross_section_exceeded
  | accepted
  deriving DecidableEq

/-- `PrinterExtruder.check_move(move)` (lines 107-134).  `can_extrude`
stands for the heater collaborator's `self.heater.can_extrude` flag.
The ratio `extrude_r = move.axes_d[3] / move.move_d` is computed first;
with `move_d == 0` Python raises `ZeroDivisionError` there, before the
temperature gate is reached. -/
def check_move (cfg : ExtruderConfig) (can_extrude : Bool) (m : Move) : CheckResult :=
  if m.move_d = 0 then CheckResult.division_by_zero
  else
    let extrude_r : ℚ := m.axes_d3 / m.move_d
    if can_extrude = false then CheckResult.not_hot
    else if m.is_kinematic_move = false ∨ extrude_r < 0 then
      if |m.axes_d3| > cfg.max_e_dist then CheckResult.extrude_only_too_long
      else if extrude_r = 0 then CheckResult.division_by_zero
      else
        CheckResult.limit_speed (cfg.max_e_velocity * (1 / |extrude_r|))
          (cfg.max_e_accel * (1 / |extrude_r|))
    else if extrude_r > cfg.max_extrude_ratio then
      if m.axes_d3 ≤ cfg.nozzle_diameter * cfg.max_extrude_ratio then CheckResult.accepted
      else CheckResult.cross_section_exceeded
    else CheckResult.accepted

/-- `check_move` accepts the move (either plainly or after the
extrude-only speed clamp). -/
def accepts : CheckResult → Bool
  | CheckResult.limit_speed _ _ => true
  | CheckResult.accepted => true
  | _ => false

/-- `PrinterExtruder.calc_junction(prev_move, move)` (lines 135-141).
`none` models the `ZeroDivisionError` raised when either move has
`move_d == 0` (the ratio of `move` is computed before that of
`prev_move`). -/
def calc_junction (cfg : ExtruderConfig) (prev_move m : Move) : Option ℚ :=
  if m.move_d = 0 ∨ prev_move.move_d = 0 then none
  else
    let extrude_r : ℚ := m.axes_d3 / m.move_d
    let prev_extrude_r : ℚ := prev_move.axes_d3 / prev_move.move_d
    let diff_r : ℚ := extrude_r - prev_extrude_r
    if diff_r ≠ 0 then some ((cfg.instant_corner_v / |diff_r|) ^ 2)
    else some m.max_cruise_v2

/-- The mutable pressure-advance fields of `PrinterExtruder`. -/
structure PAState where
  pressure_advance : ℚ
  pressure_advance_smooth_time : ℚ
  deriving DecidableEq

/-- Side effects issued by `_set_pressure_advance`, in order:
`toolhead.note_flush_delay(new_smooth_time, old_delay=old_smooth_time)`
and `extruder_set_pressure(sk, pressure_advance, new_smooth_time)`. -/
inductive PAEvent
  | note_flush_delay (new_delay old_delay : ℚ)
  | extruder_set_pressure (pa smooth : ℚ)
  deriving DecidableEq

/-- `PrinterExtruder._set_pressure_advance(pressure_advance, smooth_time)`
(lines 77-89): returns the updated stored state together with the ordered
list of external calls made. -/
def set_pressure_advance (s : PAState) (pressure_advance smooth_time : ℚ) :
    PAState × List PAEvent :=
  let old_smooth_time : ℚ :=
    if s.pressure_advance = 0 then 0 else s.pressure_advance_smooth_time
  let new_smooth_time : ℚ := if pressure_advance = 0 then 0 else smooth_time
  (⟨pressure_advance, smooth_time⟩,
   [PAEvent.note_flush_delay new_smooth_time old_smooth_time,
    PAEvent.extruder_set_pressure pressure_advance new_smooth_time])

/-- Recognise the delay-negotiation call among the issued events. -/
def is_flush_delay_event : PAEvent → Bool
  | PAEvent.note_flush_delay _ _ => true
  | _ => false

/-- The two fields that `PrinterExtruder.get_status` adds on top of the
heater's own status mapping (the heater part is an external collaborator
and carries no extruder state). -/
structure ExtruderStatus where
  pressure_advance : ℚ
  smooth_time : ℚ
  deriving DecidableEq

/-- `PrinterExtruder.get_status` (lines 90-93), restricted to the
extruder-owned keys. -/
def get_status (s : PAState) : ExtruderStatus :=
  ⟨s.pressure_advance, s.pressure_advance_smooth_time⟩

/-- The mutable runtime fields of `PrinterExtruder` used by `move` /
`motor_off`. -/
structure ERunState where
  need_motor_enable : Bool
  extrude_pos : ℚ
  extrude_pa_pos : ℚ
  deriving DecidableEq

/-- `need_motor_enable = True` and zero positions, as set in
`PrinterExtruder.__init__` (lines 55-56). -/
def init_runtime_state : ERunState := ⟨true, 0, 0⟩

/-- Side effects issued by `PrinterExtruder.move` / `motor_off`:
`stepper.motor_enable(print_time, flag)` and the
`extruder_move_fill(...)` call into the iterative solver. -/
inductive MoveEvent
  | motor_enable (print_time : ℚ) (flag : ℕ)
  | extruder_move_fill (print_time accel_t cruise_t decel_t start_pos pa_pos
      start_v cruise_v accel : ℚ) (is_pa_move : Bool)
  deriving DecidableEq

/-- `PrinterExtruder.move(print_time, move)` (lines 144-165): returns the
ordered event list and the updated state, or `none` in the state slot when
`axis_r = axis_d / move.move_d` raises `ZeroDivisionError` (the motor
enable has already been issued at that point). -/
def extruder_move (s : ERunState) (print_time : ℚ) (m : Move) :
    List MoveEvent × Option ERunState :=
  let enable_events : List MoveEvent :=
    if s.need_motor_enable then [MoveEvent.motor_enable print_time 1] else []
  let s1 : ERunState :=
    if s.need_motor_enable then { s with need_motor_enable := false } else s
  if m.move_d = 0 then (enable_events, none)
  else
    let axis_d : ℚ := m.axes_d3
    let axis_r : ℚ := axis_d / m.move_d
    let accel : ℚ := m.accel * axis_r
    let start_v : ℚ := m.start_v * axis_r
    let cruise_v : ℚ := m.cruise_v * axis_r
    let is_pa_move : Bool :=
      decide (0 ≤ axis_d) && (decide (m.axes_d0 ≠ 0) || decide (m.axes_d1 ≠ 0))
    (enable_events ++
       [MoveEvent.extruder_move_fill print_time m.accel_t m.cruise_t m.decel_t
          m.start_pos3 s1.extrude_pa_pos start_v cruise_v accel is_pa_move],
     some { s1 with
              extrude_pos := m.end_pos3,
              extrude_pa_pos :=
                if is_pa_move then s1.extrude_pa_pos + axis_d
                else s1.extrude_pa_pos })

/-- `PrinterExtruder.motor_off(print_time)` (lines 104-106). -/
def motor_off (s : ERunState) (print_time : ℚ) : List MoveEvent × ERunState :=
  ([MoveEvent.motor_enable print_time 0], { s with need_motor_enable := true })

/-- Run a consecutive sequence of `move` calls; a `ZeroDivisionError`
aborts the sequence (already-issued events are kept). -/
def run_moves (print_time : ℚ) : ERunState → List Move → List MoveEvent × Option ERunState
  | s, [] => ([], some s)
  | s, m :: rest =>
    let step := extruder_move s print_time m
    match step.2 with
    | none => (step.1, none)
    | some s2 =>
      let tail := run_moves print_time s2 rest
      (step.1 ++ tail.1, tail.2)

/-- The event is a motor-enable (`stepper.motor_enable(t, 1)`) call. -/
def is_enable_event : MoveEvent → Bool
  | MoveEvent.motor_enable _ flag => decide (flag = 1)
  | _ => false

/-- Number of motor-enable side effects in an event trace. -/
def count_enables (evs : List MoveEvent) : ℕ := (evs.filter is_enable_event).length

/-- The payload of the `homing.EndstopMoveError` raised by
`DummyExtruder.check_move` (the offending move's end position and the
fixed message). -/
structure EndstopMoveError where
  end_pos : ℚ
  message : String
  deriving DecidableEq

/-- `DummyExtruder.check_move(move)` (lines 190-192): always raises. -/
def dummy_check_move (m : Move) : Except EndstopMoveError Unit :=
  Except.error ⟨m.end_pos3, "Extrude when no extruder present"⟩

/-- `DummyExtruder.calc_junction(prev_move, move)` (lines 193-194). -/
def dummy_calc_junction (prev_move m : Move) : ℚ := m.max_cruise_v2

/-- `DummyExtruder.set_active(print_time, is_active)` (lines 186-187). -/
def dummy_set_active (print_time : ℚ) (is_active : Bool) : ℚ := 0

/-! Concrete fixtures used to evaluate the definitions at explicit inputs. -/

/-- A concrete configuration (nozzle 0.4mm, `max_e_dist` 50mm, the default
`instantaneous_corner_velocity` 1). -/
def cfg0 : ExtruderConfig :=
  { nozzle_diameter := 2/5
    filament_area := 12/5
    max_extrude_ratio := 4/15
    max_e_velocity := 100
    max_e_accel := 1000
    max_e_dist := 50
    instant_corner_v := 1 }

/-- A pure-extrusion move per the spec's data model: `move_d == 0`,
extruder displacement 1mm, not a kinematic move. -/
def mv_zero_d : Move :=
  { axes_d0 := 0, axes_d1 := 0, axes_d2 := 0, axes_d3 := 1, move_d := 0
    is_kinematic_move := false, max_cruise_v2 := 0, accel := 0, start_v := 0
    cruise_v := 0, accel_t := 0, cruise_t := 0, decel_t := 0
    start_pos3 := 0, end_pos3 := 1 }

/-- A pure-extrusion move per the spec's data model with extruder
displacement 60mm (beyond `max_e_dist = 50`). -/
def mv_long : Move :=
  { axes_d0 := 0, axes_d1 := 0, axes_d2 := 0, axes_d3 := 60, move_d := 0
    is_kinematic_move := false, max_cruise_v2 := 0, accel := 0, start_v := 0
    cruise_v := 0, accel_t := 0, cruise_t := 0, decel_t := 0
    start_pos3 := 0, end_pos3 := 60 }

/-- A kinematic move with no extrusion: `move_d = 1`, `axes_d[3] = 0`. -/
def mv_k : Move :=
  { axes_d0 := 1, axes_d1 := 0, axes_d2 := 0, axes_d3 := 0, move_d := 1
    is_kinematic_move := true, max_cruise_v2 := 25, accel := 10, start_v := 0
    cruise_v := 5, accel_t := 1/2, cruise_t := 1, decel_t := 1/2
    start_pos3 := 0, end_pos3 := 0 }

/-- A kinematic retraction move: `move_d = 1`, `axes_d[3] = -1`. -/
def mv_ret : Move :=
  { axes_d0 := 1, axes_d1 := 0, axes_d2 := 0, axes_d3 := -1, move_d := 1
    is_kinematic_move := true, max_cruise_v2 := 25, accel := 10, start_v := 0
    cruise_v := 5, accel_t := 1/2, cruise_t := 1, decel_t := 1/2
    start_pos3 := 1, end_pos3 := 0 }

/-- A short over-ratio kinematic move: extrude ratio `1/2` exceeds
`cfg0.max_extrude_ratio = 4/15` but `axes_d[3] = 1/10` is below the
tiny-extrusion threshold `0.4 * 4/15`. -/
def mv_tiny : Move :=
  { axes_d0 := 1/5, axes_d1 := 0, axes_d2 := 0, axes_d3 := 1/10, move_d := 1/5
    is_kinematic_move := true, max_cruise_v2 := 25, accel := 10, start_v := 0
    cruise_v := 5, accel_t := 1/2, cruise_t := 1, decel_t := 1/2
    start_pos3 := 0, end_pos3 := 1/10 }

/-- An extrude-only move in the planner's actual shape
(`move_d = |axes_d[3]| = 2`, flagged non-kinematic). -/
def mv_eonly : Move :=
  { axes_d0 := 0, axes_d1 := 0, axes_d2 := 0, axes_d3 := 2, move_d := 2
    is_kinematic_move := false, max_cruise_v2 := 25, accel := 10, start_v := 0
    cruise_v := 5, accel_t := 1/2, cruise_t := 1, decel_t := 1/2
    start_pos3 := 0, end_pos3 := 2 }

/-- A kinematic move with extrude ratio `1/2`: `move_d = 1`,
`axes_d[3] = 1/2`. -/
def mv_half : Move :=
  { axes_d0 := 1, axes_d1 := 0, axes_d2 := 0, axes_d3 := 1/2, move_d := 1
    is_kinematic_move := true, max_cruise_v2 := 25, accel := 10, start_v := 0
    cruise_v := 5, accel_t := 1/2, cruise_t := 1, decel_t := 1/2
    start_pos3 := 0, end_pos3 := 1/2 }

/-! Theorems. -/

/-- With `move_d == 0` the very first statement of `check_move` raises
`ZeroDivisionError`, so no other outcome is reachable. -/
lemma check_move_of_move_d_eq_zero (cfg : ExtruderConfig) (can : Bool) (m : Move)
    (h : m.move_d = 0) : check_move cfg can m = CheckResult.division_by_zero := by
  simp [check_move, h]

/-- Claim C1 (amended): for every move whose ratio computation is defined
(`move_d ≠ 0`), the rejection conditions are evaluated in the fixed order
temperature check, then extrude-only branch, then ratio branch, then
tiny-extrusion exception: a heater that cannot extrude always yields the
NotHot error, a distance rejection implies the temperature gate passed and
the extrude-only branch was taken, and a cross-section rejection implies
the temperature gate passed, the extrude-only branch was not taken, the
ratio bound was exceeded and the tiny-extrusion exception did not apply. -/
theorem check_move_cold_heater_first (cfg : ExtruderConfig) (m : Move)
    (h : m.move_d ≠ 0) :
    check_move cfg false m = CheckResult.not_hot
    ∧ (∀ c, check_move cfg c m = CheckResult.extrude_only_too_long →
        c = true ∧ (m.is_kinematic_move = false ∨ m.axes_d3 / m.move_d < 0))
    ∧ (∀ c, check_move cfg c m = CheckResult.cross_section_exceeded →
        c = true ∧ m.is_kinematic_move = true ∧ ¬ m.axes_d3 / m.move_d < 0
          ∧ cfg.max_extrude_ratio < m.axes_d3 / m.move_d
          ∧ cfg.nozzle_diameter * cfg.max_extrude_ratio < m.axes_d3) := by
  refine ⟨by simp [check_move, h], ?_, ?_⟩
  · intro c hc
    cases c with
    | false => simp [check_move, h] at hc
    | true =>
      refine ⟨rfl, ?_⟩
      simp only [check_move, if_neg h] at hc
      by_cases hb : m.is_kinematic_move = false ∨ m.axes_d3 / m.move_d < 0
      · exact hb
      · simp only [if_neg hb] at hc
        split_ifs at hc
  · intro c hc
    cases c with
    | false => simp [check_move, h] at hc
    | true =>
      refine ⟨rfl, ?_⟩
      simp only [check_move, if_neg h] at hc
      by_cases hb : m.is_kinematic_move = false ∨ m.axes_d3 / m.move_d < 0
      · simp only [if_pos hb] at hc
        split_ifs at hc
      · simp only [if_neg hb] at hc
        have hk : m.is_kinematic_move = true := by
          cases hkm : m.is_kinematic_move with
          | false => exact absurd (Or.inl hkm) hb
          | true => rfl
        have hr : ¬ m.axes_d3 / m.move_d < 0 := fun hlt => hb (Or.inr hlt)
        refine ⟨hk, hr, ?_⟩
        split_ifs at hc with h1 h2 <;> simp_all

/-- Claim C1 witness: the amended theorem at the concrete configuration
`cfg0` and the concrete kinematic move `mv_k`. -/
theorem check_move_cold_heater_first_witness :
    mv_k.move_d ≠ 0 ∧ check_move cfg0 false mv_k = CheckResult.not_hot :=
  ⟨by simp [mv_k], (check_move_cold_heater_first cfg0 mv_k (by simp [mv_k])).1⟩

/-- Claim C1 counterexample: on the spec's pure-extrusion move
(`move_d == 0`) with a cold heater, `check_move` raises
`ZeroDivisionError` at the ratio computation, so the NotHot error is not
the reported failure. -/
theorem check_move_cold_heater_zero_move_d :
    check_move cfg0 false mv_zero_d = CheckResult.division_by_zero
    ∧ check_move cfg0 false mv_zero_d ≠ CheckResult.not_hot := by
  constructor <;> simp [check_move, cfg0, mv_zero_d]

/-- Claim C2 (amended): for every move with a defined extrude ratio
(`move_d ≠ 0`) that is flagged extrude-only or has negative extrude ratio,
`check_move` takes the extrude-only/retraction branch: it never reports a
cross-section rejection, its outcome is independent of
`max_extrude_ratio`, and the only reachable outcomes are NotHot, the
distance rejection, a division fault (`axes_d[3] = 0`), or acceptance with
the extrude-only speed clamp.  (When `move_d == 0` the ratio computation
itself faults, so `check_move` is not total there.) -/
theorem check_move_extrude_only_branch (cfg : ExtruderConfig) (can : Bool) (m : Move)
    (r2 : ℚ) (h : m.move_d ≠ 0)
    (hb : m.is_kinematic_move = false ∨ m.axes_d3 / m.move_d < 0) :
    check_move cfg can m ≠ CheckResult.cross_section_exceeded
    ∧ check_move cfg can m = check_move { cfg with max_extrude_ratio := r2 } can m
    ∧ (check_move cfg can m = CheckResult.not_hot
       ∨ check_move cfg can m = CheckResult.extrude_only_too_long
       ∨ check_move cfg can m = CheckResult.division_by_zero
       ∨ ∃ v a, check_move cfg can m = CheckResult.limit_speed v a) := by
  cases can with
  | false => simp [check_move, h]
  | true =>
    simp only [check_move, if_neg h]
    simp only [if_pos hb]
    split_ifs <;> simp

/-- Claim C2 witness: the amended theorem at the concrete configuration
`cfg0` and the concrete retraction move `mv_ret` (with `max_extrude_ratio`
replaced by 42 in the independence conjunct). -/
theorem check_move_extrude_only_branch_witness :
    check_move cfg0 true mv_ret ≠ CheckResult.cross_section_exceeded
    ∧ check_move cfg0 true mv_ret
        = check_move { cfg0 with max_extrude_ratio := 42 } true mv_ret :=
  ⟨(check_move_extrude_only_branch cfg0 true mv_ret 42 (by simp [mv_ret])
      (by norm_num [mv_ret])).1,
   (check_move_extrude_only_branch cfg0 true mv_ret 42 (by simp [mv_ret])
      (by norm_num [mv_ret])).2.1⟩

/-- Claim C3: whenever `|axes_d[3]| ≤ nozzle_diameter * max_extrude_ratio`,
`check_move` never reports a cross-section rejection; moreover when the
ratio branch is reached with `extrude_ratio > max_extrude_ratio`, the
tiny-extrusion exception accepts the move unconditionally. -/
theorem check_move_tiny_extrusion_safe (cfg : ExtruderConfig) (can : Bool) (m : Move)
    (h : |m.axes_d3| ≤ cfg.nozzle_diameter * cfg.max_extrude_ratio) :
    check_move cfg can m ≠ CheckResult.cross_section_exceeded
    ∧ (can = true → m.move_d ≠ 0 → m.is_kinematic_move = true →
        ¬ m.axes_d3 / m.move_d < 0 →
        cfg.max_extrude_ratio < m.axes_d3 / m.move_d →
        check_move cfg can m = CheckResult.accepted) := by
  have hd3 : m.axes_d3 ≤ cfg.nozzle_diameter * cfg.max_extrude_ratio :=
    le_trans (le_abs_self _) h
  constructor
  · simp only [check_move]
    split_ifs <;> simp_all
  · intro hcan hd hk hr hgt
    subst hcan
    have hb : ¬ (m.is_kinematic_move = false ∨ m.axes_d3 / m.move_d < 0) := by
      rw [hk]; simp [hr]
    simp only [check_move, if_neg hd, if_neg hb, if_pos hgt, if_pos hd3]
    simp

/-- Claim C3 witness: the theorem at `cfg0` (tiny-extrusion threshold
`0.4 * 4/15 ≈ 0.107`) and a short over-ratio move (`axes_d[3] = 1/10`,
`move_d = 1/5`, extrude ratio `1/2 > 4/15`). -/
theorem check_move_tiny_extrusion_safe_witness :
    check_move cfg0 true mv_tiny ≠ CheckResult.cross_section_exceeded
    ∧ check_move cfg0 true mv_tiny = CheckResult.accepted :=
  ⟨(check_move_tiny_extrusion_safe cfg0 true mv_tiny
      (by rw [show mv_tiny.axes_d3 = 1/10 from rfl, abs_of_pos (by norm_num)]
          norm_num [cfg0])).1,
   (check_move_tiny_extrusion_safe cfg0 true mv_tiny
      (by rw [show mv_tiny.axes_d3 = 1/10 from rfl, abs_of_pos (by norm_num)]
          norm_num [cfg0])).2 rfl (by norm_num [mv_tiny]) rfl
     (by norm_num [mv_tiny]) (by norm_num [mv_tiny, cfg0])⟩

/-- Claim C4 (amended): for every move taking the extrude-only/retraction
branch with a defined, nonzero extrude ratio and a hot heater, `check_move`
reports the distance rejection exactly when `|axes_d[3]| > max_e_dist`,
and otherwise accepts the move while clamping its speed limits to
`max_e_velocity / |extrude_ratio|` and `max_e_accel / |extrude_ratio|`.
(On the spec's pure-extrusion shape `move_d == 0` the ratio computation
faults instead, so neither outcome is reported there.) -/
theorem check_move_extrude_only_distance (cfg : ExtruderConfig) (m : Move)
    (h : m.move_d ≠ 0) (hd3 : m.axes_d3 ≠ 0)
    (hb : m.is_kinematic_move = false ∨ m.axes_d3 / m.move_d < 0) :
    (check_move cfg true m = CheckResult.extrude_only_too_long
        ↔ |m.axes_d3| > cfg.max_e_dist)
    ∧ (¬ |m.axes_d3| > cfg.max_e_dist →
        check_move cfg true m =
          CheckResult.limit_speed (cfg.max_e_velocity / |m.axes_d3 / m.move_d|)
            (cfg.max_e_accel / |m.axes_d3 / m.move_d|)) := by
  have hr : m.axes_d3 / m.move_d ≠ 0 := div_ne_zero hd3 h
  have hclamp : ¬ |m.axes_d3| > cfg.max_e_dist →
      check_move cfg true m =
        CheckResult.limit_speed (cfg.max_e_velocity / |m.axes_d3 / m.move_d|)
          (cfg.max_e_accel / |m.axes_d3 / m.move_d|) := by
    intro hnd
    simp only [check_move, if_neg h, if_pos hb, if_neg hnd, if_neg hr]
    rw [mul_one_div, mul_one_div]
    simp
  refine ⟨⟨?_, ?_⟩, hclamp⟩
  · intro hc
    by_contra hnd
    rw [hclamp hnd] at hc
    exact absurd hc (by simp)
  · intro hdist
    simp [check_move, if_neg h, if_pos hb, hdist]

/-- Claim C4 witness: the amended theorem at `cfg0` and a 2mm extrude-only
move (`move_d = 2`, `axes_d[3] = 2`, within `max_e_dist = 50`). -/
theorem check_move_extrude_only_distance_witness :
    check_move cfg0 true mv_eonly =
      CheckResult.limit_speed
        (cfg0.max_e_velocity / |mv_eonly.axes_d3 / mv_eonly.move_d|)
        (cfg0.max_e_accel / |mv_eonly.axes_d3 / mv_eonly.move_d|) :=
  (check_move_extrude_only_distance cfg0 mv_eonly (by norm_num [mv_eonly])
      (by norm_num [mv_eonly]) (by simp [mv_eonly])).2
    (by rw [show mv_eonly.axes_d3 = 2 from rfl, abs_of_pos (by norm_num)]
        norm_num [cfg0])

/-- Claim C4 counterexample: the spec's own scenario move — extrude-only
with `axes_d[3] = 60 > max_e_dist = 50` — in the spec's pure-extrusion
shape (`move_d == 0`): `check_move` raises `ZeroDivisionError` rather than
reporting the distance rejection. -/
theorem check_move_long_extrude_only_faults :
    check_move cfg0 true mv_long = CheckResult.division_by_zero
    ∧ check_move cfg0 true mv_long ≠ CheckResult.extrude_only_too_long
    ∧ cfg0.max_e_dist < |mv_long.axes_d3| := by
  refine ⟨by simp [check_move, mv_long], by simp [check_move, mv_long], ?_⟩
  rw [show mv_long.axes_d3 = 60 from rfl, abs_of_pos (by norm_num)]
  norm_num [cfg0]

/-- Claim C2 counterexample: on a move with `move_d == 0` the ratio
computation `axes_d[3] / move_d` faults with `ZeroDivisionError`, so
`check_move` is not a total function on such moves. -/
theorem check_move_zero_move_d_faults :
    check_move cfg0 true mv_zero_d = CheckResult.division_by_zero := by
  simp [check_move, cfg0, mv_zero_d]

/-- Claim C5: for two consecutive moves with defined extrusion ratios,
`calc_junction` returns `(instant_corner_v / |diff_r|)^2` whenever the
ratios differ and `move.max_cruise_v2` unchanged whenever they are equal,
where each ratio is the move's extruder displacement over its Cartesian
distance. -/
theorem calc_junction_ratio_difference (cfg : ExtruderConfig) (pm m : Move)
    (h1 : pm.move_d ≠ 0) (h2 : m.move_d ≠ 0) :
    (m.axes_d3 / m.move_d - pm.axes_d3 / pm.move_d ≠ 0 →
      calc_junction cfg pm m =
        some ((cfg.instant_corner_v /
            |m.axes_d3 / m.move_d - pm.axes_d3 / pm.move_d|) ^ 2))
    ∧ (m.axes_d3 / m.move_d - pm.axes_d3 / pm.move_d = 0 →
      calc_junction cfg pm m = some m.max_cruise_v2) := by
  have hnd : ¬ (m.move_d = 0 ∨ pm.move_d = 0) := by simp [h1, h2]
  constructor
  · intro hdiff
    simp only [calc_junction, if_neg hnd]
    simp [hdiff]
  · intro hdiff
    simp only [calc_junction, if_neg hnd]
    simp [hdiff]

/-- Claim C5 witness: the theorem at `cfg0`, the zero-extrusion move
`mv_k` and the half-ratio move `mv_half` (ratio difference `1/2`). -/
theorem calc_junction_ratio_difference_witness :
    calc_junction cfg0 mv_k mv_half =
      some ((cfg0.instant_corner_v /
          |mv_half.axes_d3 / mv_half.move_d - mv_k.axes_d3 / mv_k.move_d|) ^ 2) :=
  (calc_junction_ratio_difference cfg0 mv_k mv_half (by simp [mv_k])
      (by simp [mv_half])).1 (by norm_num [mv_k, mv_half])

/-- Claim C6: every call to `_set_pressure_advance(g, s)` issues the
delay-negotiation call `note_flush_delay(new, old)` exactly once — with
`new = 0` when `g = 0` (else `s`) and `old = 0` when the stored gain was 0
(else the stored smoothing time) — before publishing `(g, new)` to the
solver interface, and only then stores the raw `(g, s)`; nothing in the
call is skipped when the arguments equal the stored values. -/
theorem set_pressure_advance_negotiates (s : PAState) (g st : ℚ) :
    (set_pressure_advance s g st).2 =
        [PAEvent.note_flush_delay (if g = 0 then 0 else st)
            (if s.pressure_advance = 0 then 0 else s.pressure_advance_smooth_time),
         PAEvent.extruder_set_pressure g (if g = 0 then 0 else st)]
    ∧ (set_pressure_advance s g st).2.countP is_flush_delay_event = 1
    ∧ (set_pressure_advance s g st).1 = ⟨g, st⟩ := by
  refine ⟨rfl, ?_, rfl⟩
  simp [set_pressure_advance, is_flush_delay_event]

/-- Claim C10: after `_set_pressure_advance(0, s)` with `s ≠ 0`, the
stored smoothing time and the `smooth_time` field of the status report
both equal the raw argument `s` — not the effective smoothing time 0 that
was negotiated with the planner and published to the solver. -/
theorem set_pressure_advance_status_raw (s : PAState) (st : ℚ) (h : st ≠ 0) :
    ((set_pressure_advance s 0 st).1).pressure_advance_smooth_time = st
    ∧ (get_status (set_pressure_advance s 0 st).1).smooth_time = st
    ∧ (get_status (set_pressure_advance s 0 st).1).smooth_time ≠ 0
    ∧ (set_pressure_advance s 0 st).2 =
        [PAEvent.note_flush_delay 0
            (if s.pressure_advance = 0 then 0
             else s.pressure_advance_smooth_time),
         PAEvent.extruder_set_pressure 0 0] := by
  refine ⟨rfl, rfl, h, ?_⟩
  simp [set_pressure_advance]

/-- Claim C10 witness: the theorem from the freshly constructed state
(gain 0, smoothing time 0) with the argument `s = 0.04`. -/
theorem set_pressure_advance_status_raw_witness :
    ((set_pressure_advance ⟨0, 0⟩ 0 (1/25)).1).pressure_advance_smooth_time = 1/25
    ∧ (get_status (set_pressure_advance ⟨0, 0⟩ 0 (1/25)).1).smooth_time = 1/25
    ∧ (get_status (set_pressure_advance ⟨0, 0⟩ 0 (1/25)).1).smooth_time ≠ 0
    ∧ (set_pressure_advance ⟨0, 0⟩ 0 (1/25)).2 =
        [PAEvent.note_flush_delay 0
            (if (⟨0, 0⟩ : PAState).pressure_advance = 0 then 0
             else (⟨0, 0⟩ : PAState).pressure_advance_smooth_time),
         PAEvent.extruder_set_pressure 0 0] :=
  set_pressure_advance_status_raw ⟨0, 0⟩ (1/25) (by norm_num)

/-- Claim C9: the no-extruder stand-in rejects every move with the fixed
"Extrude when no extruder present" error (it never accepts), its junction
computation returns `move.max_cruise_v2` unchanged, and its position
contribution is always zero. -/
theorem dummy_extruder_rejects (pm m : Move) (t : ℚ) (b : Bool) :
    dummy_check_move m =
        Except.error ⟨m.end_pos3, "Extrude when no extruder present"⟩
    ∧ (∀ u : Unit, dummy_check_move m ≠ Except.ok u)
    ∧ dummy_calc_junction pm m = m.max_cruise_v2
    ∧ dummy_set_active t b = 0 := by
  refine ⟨rfl, ?_, rfl, rfl⟩
  intro u
  simp [dummy_check_move]

/-- Claim C9 witness: the theorem at concrete moves and arguments. -/
theorem dummy_extruder_rejects_witness :
    dummy_check_move mv_k =
        Except.error ⟨mv_k.end_pos3, "Extrude when no extruder present"⟩
    ∧ dummy_check_move mv_k ≠ Except.ok ()
    ∧ dummy_calc_junction mv_half mv_k = mv_k.max_cruise_v2
    ∧ dummy_set_active 3 true = 0 :=
  ⟨(dummy_extruder_rejects mv_half mv_k 3 true).1,
   (dummy_extruder_rejects mv_half mv_k 3 true).2.1 (),
   (dummy_extruder_rejects mv_half mv_k 3 true).2.2.1,
   (dummy_extruder_rejects mv_half mv_k 3 true).2.2.2⟩

/-- A move accepted by `check_move` has `move_d ≠ 0` (with `move_d == 0`
the ratio computation faults before any acceptance path). -/
lemma accepts_move_d_ne_zero (cfg : ExtruderConfig) (can : Bool) (m : Move)
    (h : accepts (check_move cfg can m) = true) : m.move_d ≠ 0 := by
  intro hd
  rw [check_move_of_move_d_eq_zero cfg can m hd] at h
  simp [accepts] at h

/-- Claim C7: after `move(print_time, move)` on any move accepted by
`check_move`, `extrude_pos` equals `move.end_pos[3]` exactly, and
`extrude_pa_pos` grows by exactly `axes_d[3]` precisely under the
`is_pa_move` condition (non-negative extruder displacement together with
nonzero X or Y displacement); otherwise it is unchanged. -/
theorem extruder_move_updates_positions (cfg : ExtruderConfig) (can : Bool)
    (s : ERunState) (t : ℚ) (m : Move)
    (h : accepts (check_move cfg can m) = true) :
    ((extruder_move s t m).2).map ERunState.extrude_pos = some m.end_pos3
    ∧ ((extruder_move s t m).2).map ERunState.extrude_pa_pos =
        some (if 0 ≤ m.axes_d3 ∧ (m.axes_d0 ≠ 0 ∨ m.axes_d1 ≠ 0)
              then s.extrude_pa_pos + m.axes_d3 else s.extrude_pa_pos) := by
  have hd : m.move_d ≠ 0 := accepts_move_d_ne_zero cfg can m h
  have hs1 : (if s.need_motor_enable then { s with need_motor_enable := false }
      else s).extrude_pa_pos = s.extrude_pa_pos := by
    by_cases hn : s.need_motor_enable <;> simp [hn]
  simp only [extruder_move, if_neg hd, Option.map_some']
  refine ⟨trivial, ?_⟩
  simp only [hs1, Bool.and_eq_true, Bool.or_eq_true, decide_eq_true_eq]

/-- Claim C7 witness: the theorem at `cfg0`, the initial runtime state and
the accepted kinematic move `mv_k` (zero extruder displacement, nonzero X
displacement). -/
theorem extruder_move_updates_positions_witness :
    ((extruder_move init_runtime_state 0 mv_k).2).map ERunState.extrude_pos
        = some mv_k.end_pos3
    ∧ ((extruder_move init_runtime_state 0 mv_k).2).map ERunState.extrude_pa_pos =
        some (if 0 ≤ mv_k.axes_d3 ∧ (mv_k.axes_d0 ≠ 0 ∨ mv_k.axes_d1 ≠ 0)
              then init_runtime_state.extrude_pa_pos + mv_k.axes_d3
              else init_runtime_state.extrude_pa_pos) :=
  extruder_move_updates_positions cfg0 true init_runtime_state 0 mv_k
    (by norm_num [accepts, check_move, mv_k, cfg0])

/-- Every state reached through a successful `move` call has the
motor-enable latch cleared. -/
lemma extruder_move_clears_latch (s : ERunState) (t : ℚ) (m : Move)
    (s2 : ERunState) (h : (extruder_move s t m).2 = some s2) :
    s2.need_motor_enable = false := by
  simp only [extruder_move] at h
  by_cases hd : m.move_d = 0
  · simp [hd] at h
  · simp only [if_neg hd, Option.some.injEq] at h
    rw [← h]
    by_cases hn : s.need_motor_enable <;> simp [hn]

/-- A single `move` call issues the motor-enable side effect exactly when
the latch was pending. -/
lemma extruder_move_enable_count (s : ERunState) (t : ℚ) (m : Move) :
    count_enables (extruder_move s t m).1 =
      if s.need_motor_enable then 1 else 0 := by
  by_cases hn : s.need_motor_enable <;> by_cases hd : m.move_d = 0 <;>
    simp [extruder_move, count_enables, is_enable_event, hn, hd]

/-- Event traces concatenate additively under `count_enables`. -/
lemma count_enables_append (a b : List MoveEvent) :
    count_enables (a ++ b) = count_enables a + count_enables b := by
  simp [count_enables, List.filter_append]

/-- Claim C8: across any consecutive sequence of `move` calls, the
motor-enable side effect is issued exactly once when the enable latch was
pending and the sequence is nonempty, and never when the latch was clear;
`motor_off` re-arms the latch, and the freshly constructed extruder starts
with the latch pending. -/
theorem motor_enable_once_per_transition :
    (∀ (s : ERunState) (t : ℚ) (moves : List Move),
        count_enables (run_moves t s moves).1 =
          if s.need_motor_enable then (if moves.isEmpty then 0 else 1) else 0)
    ∧ (∀ (s : ERunState) (t : ℚ), ((motor_off s t).2).need_motor_enable = true)
    ∧ init_runtime_state.need_motor_enable = true := by
  refine ⟨?_, fun s t => rfl, rfl⟩
  intro s t moves
  induction moves generalizing s with
  | nil => simp [run_moves, count_enables]
  | cons m rest ih =>
    simp only [run_moves]
    rcases hstep : (extruder_move s t m).2 with _ | s2
    · by_cases hn : s.need_motor_enable <;>
        simp [extruder_move_enable_count, hn]
    · have hl := extruder_move_clears_latch s t m s2 hstep
      by_cases hn : s.need_motor_enable <;>
        simp [count_enables_append, extruder_move_enable_count, ih s2, hl, hn]

end Klippy
